import Mathlib

/-!
Shallow embedding of `server.py`, the dependency-probe diagnostic HTTP server.

The server exposes `GET /` (a full report over six dependency probes),
`GET /healthcheck` (liveness: metadata only, status 299) and 404 for any
other path.  Each probe times itself with `datetime.now()` around its body,
classifies the outcome as the string "SUCCESS" or "FAILED" (any exception
is caught and maps to "FAILED"), and records the verdict in an external
parameter store via `put_parameter_store`, which swallows every exception.

Modelling conventions:
- External nondeterminism (does a call raise? how long does it take? what
  does the metadata endpoint return?) is an explicit read-only `Env`.
- Mutable world state (wall clock, external parameter store, warning log,
  X-ray trace, the set of probes entered, the requests issued) is an
  explicit `St` threaded through every function.
- The wall clock is a `Nat` counted in hundredths of a millisecond: the
  code reports `round(delta.total_seconds() * 1000, 2)`, whose resolution
  is exactly 0.01 ms, so at this granularity the reported number is the
  clock difference itself and is a multiple of 0.01 ms by construction.
- Python exceptions inside a `try` are modelled by the `ok` flag of the
  corresponding `ExtCall`; the duration field is the time the call consumed
  whether it returned or raised.
-/

namespace Server

/-- Outcome of one fallible external call: `ok` is whether it returns
normally (`false` = it raises), `dur` is the wall-clock time it consumes
in hundredths of a millisecond. -/
structure ExtCall where
  ok : Bool
  dur : Nat
deriving Repr, DecidableEq

/-- The read-only behaviour of the external world during one request:
one field per external interaction point of `server.py`. -/
structure Env where
  /-- `put_parameter` in `put_parameter_store` succeeds. -/
  putOk : Bool
  /-- duration of one `put_parameter_store` invocation. -/
  putDur : Nat
  /-- duration of `boto3.Session()` in `call_SSM` (before `start_time`). -/
  ssmSessionDur : Nat
  /-- duration of `session.client('ssm', ...)` in `call_SSM` (inside the try). -/
  ssmClientDur : Nat
  /-- outcome of `ssm_client.get_parameter(Name='RecommendationServiceEnabled')`. -/
  ssmGet : ExtCall
  /-- seed consumed by `random.randint(1, 4)` in `call_dynamoDB`. -/
  randSeed : Nat
  /-- duration of `boto3.Session()` + `session.client('dynamodb', ...)`. -/
  ddbSetupDur : Nat
  /-- outcome of `ddb_client.get_item(...)`. -/
  ddbGet : ExtCall
  /-- whether the looked-up item exists (`get_item` returns an `Item` key);
  `call_dynamoDB` never inspects this. -/
  ddbItemPresent : Bool
  /-- duration of `boto3.Session()` + `session.client('s3', ...)` in `call_S3`. -/
  s3SetupDur : Nat
  /-- outcome of `s3.download_file(bucket, ...)`. -/
  s3Download : ExtCall
  /-- outcome of the `ec2_metadata` attribute reads in `get_metadata`. -/
  mdFetch : ExtCall
  mdAZ : String
  mdInstanceId : String
  mdInstanceType : String
  mdHostname : String
  mdIpv4 : String
  /-- `requests.get("https://1.1.1.1", timeout=0.2)` raises a connection
  error (as opposed to answering or timing out). -/
  extConnErr : Bool
  /-- time consumed before the connection error is raised. -/
  extConnDur : Nat
  /-- time until the external host's response arrives, if no connection
  error: the call returns after `extDelay` if that is under the timeout,
  else raises a timeout error at the timeout. -/
  extDelay : Nat
  /-- outcome of `dns.resolver.resolve('aws.amazon.com', 'A')`. -/
  dnsResolve : ExtCall
deriving Repr, DecidableEq

/-- Mutable world state threaded through the handler. -/
structure St where
  /-- wall clock, hundredths of a millisecond. -/
  clock : Nat
  /-- the external SSM parameter store: association list, most recent
  write first (`find?` therefore realises last-write-wins). -/
  store : List (String × String)
  /-- every `put_parameter_store(name, value, ...)` invocation, in order,
  whether or not the underlying `put_parameter` succeeded. -/
  writes : List (String × String)
  /-- `logging.warning` messages, in order. -/
  log : List String
  /-- X-ray segment/subsegment begin and end events, in order. -/
  trace : List String
  /-- names of the probe functions entered, in order. -/
  probes : List String
  /-- DynamoDB `get_item` requests issued: (table, ServiceAPI key, UserID key). -/
  ddbRequests : List (String × String × String)
  /-- S3 `download_file` requests issued: (bucket, object key). -/
  s3Requests : List (String × String)
  /-- `requests.get` calls issued: (url, timeout in hundredths of ms). -/
  extRequests : List (String × Nat)
deriving Repr, DecidableEq

/-- Last-write-wins read of the external parameter store. -/
def storeGet (store : List (String × String)) (k : String) : Option String :=
  (store.find? (fun p => p.1 == k)).map (fun p => p.2)

/-- `put_parameter_store(name, value, region)`: writes `value` under `name`
into the external store; any exception is caught and logged
(`logging.warning(e)`), and the function returns normally either way. -/
def put_parameter_store (name value region : String) (env : Env) (s : St) : St :=
  let s1 : St := { s with clock := s.clock + env.putDur,
                          writes := s.writes ++ [(name, value)] }
  if env.putOk then
    { s1 with store := (name, value) :: s1.store }
  else
    { s1 with log := s1.log ++ ["put_parameter failed: " ++ name ++ " " ++ region] }

/-- `call_SSM(region)`: `boto3.Session()`, `start_time`, then inside the try
an SSM client is created and `get_parameter(Name='RecommendationServiceEnabled')`
is called; SUCCESS/FAILED is recorded via `put_parameter_store('call_SSM', ...)`
before `end_time` is taken.  Returns `(result, elapsed)`. -/
def call_SSM (region : String) (env : Env) (s : St) : String × Nat × St :=
  let s := { s with probes := s.probes ++ ["call_SSM"] }
  let s := { s with clock := s.clock + env.ssmSessionDur }
  let start := s.clock
  let s := { s with clock := s.clock + env.ssmClientDur }
  if env.ssmGet.ok then
    let s := { s with clock := s.clock + env.ssmGet.dur }
    let s := put_parameter_store "call_SSM" "SUCCESS" region env s
    ("SUCCESS", s.clock - start, s)
  else
    let s := { s with clock := s.clock + env.ssmGet.dur,
                      log := s.log ++ ["Call to SSM failed."] }
    let s := put_parameter_store "call_SSM" "FAILED" region env s
    ("FAILED", s.clock - start, s)

/-- `random.randint(lo, hi)` driven by an explicit seed: both bounds
inclusive, uniform when the seed is uniform over a multiple of the range. -/
def randint (lo hi seed : Nat) : Nat :=
  lo + seed % (hi + 1 - lo)

/-- `call_dynamoDB(region)`: picks `user_id = str(random.randint(1, 4))`,
issues a single `get_item` on table `RecommendationService` with composite
key `{ServiceAPI: 'getRecommendation', UserID: user_id}`; any non-raising
round trip is SUCCESS (the response is never inspected), any exception is
FAILED; records the verdict via `put_parameter_store('call_dynamoDB', ...)`. -/
def call_dynamoDB (region : String) (env : Env) (s : St) : String × Nat × St :=
  let s := { s with probes := s.probes ++ ["call_dynamoDB"] }
  let start := s.clock
  let user_id := toString (randint 1 4 env.randSeed)
  let s := { s with clock := s.clock + env.ddbSetupDur }
  let s := { s with ddbRequests :=
    s.ddbRequests ++ [("RecommendationService", "getRecommendation", user_id)] }
  if env.ddbGet.ok then
    let s := { s with clock := s.clock + env.ddbGet.dur }
    let s := put_parameter_store "call_dynamoDB" "SUCCESS" region env s
    ("SUCCESS", s.clock - start, s)
  else
    let s := { s with clock := s.clock + env.ddbGet.dur,
                      log := s.log ++ ["Call to DynamoDB VPC Endpoint failed."] }
    let s := put_parameter_store "call_dynamoDB" "FAILED" region env s
    ("FAILED", s.clock - start, s)

/-- `call_S3(region, bucket)`: `start_time`, then `boto3.Session()` and an
S3 client, then `download_file(bucket, 'artifacts/three-tier-webstack/...')`;
SUCCESS iff the download returns, verdict recorded via
`put_parameter_store('call_S3', ...)` before `end_time`. -/
def call_S3 (region bucket : String) (env : Env) (s : St) : String × Nat × St :=
  let s := { s with probes := s.probes ++ ["call_S3"] }
  let start := s.clock
  let s := { s with clock := s.clock + env.s3SetupDur }
  let s := { s with s3Requests :=
    s.s3Requests ++ [(bucket, "artifacts/three-tier-webstack/s3_get_green_checkmark.png")] }
  if env.s3Download.ok then
    let s := { s with clock := s.clock + env.s3Download.dur }
    let s := put_parameter_store "call_S3" "SUCCESS" region env s
    ("SUCCESS", s.clock - start, s)
  else
    let s := { s with clock := s.clock + env.s3Download.dur,
                      log := s.log ++ ["Call to S3 VPC Endpoint failed."] }
    let s := put_parameter_store "call_S3" "FAILED" region env s
    ("FAILED", s.clock - start, s)

/-- The fixed 200 ms timeout of `requests.get("https://1.1.1.1", timeout=0.2)`,
in hundredths of a millisecond. -/
def extTimeout : Nat := 20000

/-- `call_extServer(region)`: opens the `External Dependency` X-ray
subsegment, then calls `requests.get("https://1.1.1.1", timeout=0.2)`; a
response before the timeout is SUCCESS, a connection error or timeout is
FAILED (the timeout error is raised at the 200 ms mark, not when the slow
response would have arrived); verdict recorded via `put_parameter_store`. -/
def call_extServer (region : String) (env : Env) (s : St) : String × Nat × St :=
  let s := { s with probes := s.probes ++ ["call_extServer"],
                    trace := s.trace ++ ["begin:External Dependency"] }
  let start := s.clock
  let s := { s with extRequests := s.extRequests ++ [("https://1.1.1.1", extTimeout)] }
  let (result, s) :=
    if env.extConnErr then
      let s := { s with clock := s.clock + env.extConnDur,
                        log := s.log ++ ["Call to 1.1.1.1 failed."] }
      ("FAILED", put_parameter_store "call_extServer" "FAILED" region env s)
    else if env.extDelay < extTimeout then
      let s := { s with clock := s.clock + env.extDelay }
      ("SUCCESS", put_parameter_store "call_extServer" "SUCCESS" region env s)
    else
      let s := { s with clock := s.clock + extTimeout,
                        log := s.log ++ ["Call to 1.1.1.1 failed."] }
      ("FAILED", put_parameter_store "call_extServer" "FAILED" region env s)
  let elapsed := s.clock - start
  let s := { s with trace := s.trace ++ ["end:External Dependency"] }
  (result, elapsed, s)

/-- The fixed error payload suffix of `get_metadata` on failure. -/
def mdErrorText : String :=
  "ERROR. Failure getting metadata - is this running outside AWS?"

/-- `get_metadata(healthcheck, region)`: reads five `ec2_metadata` fields
into a `<br>`-joined payload after the `<b>Metadata:</b><br>` header; on
any exception the payload carries an explanatory error text instead.
When `healthcheck` is false the body runs inside a `Metadata` X-ray
subsegment; the healthcheck path skips tracing.  Returns
`(result, elapsed, metadata)`. -/
def get_metadata (healthcheck : Bool) (region : String) (env : Env) (s : St) :
    String × Nat × String × St :=
  let s := { s with probes := s.probes ++ ["get_metadata"] }
  let s := if healthcheck then s else { s with trace := s.trace ++ ["begin:Metadata"] }
  let start := s.clock
  let header := "<b>Metadata:</b><br>"
  let (result, metadata, s) :=
    if env.mdFetch.ok then
      let payload := String.intercalate "<br>"
        ["availability_zone: " ++ env.mdAZ,
         "instance_id: " ++ env.mdInstanceId,
         "instance_type: " ++ env.mdInstanceType,
         "private_hostname: " ++ env.mdHostname,
         "private_ipv4: " ++ env.mdIpv4]
      let s := { s with clock := s.clock + env.mdFetch.dur }
      let s := put_parameter_store "get_metadata" "SUCCESS" region env s
      ("SUCCESS", header ++ payload, s)
    else
      let s := { s with clock := s.clock + env.mdFetch.dur,
                        log := s.log ++ ["Call to EC2 Meta-data failed."] }
      let s := put_parameter_store "get_metadata" "FAILED" region env s
      ("FAILED", header ++ mdErrorText, s)
  let elapsed := s.clock - start
  let s := if healthcheck then s else { s with trace := s.trace ++ ["end:Metadata"] }
  (result, elapsed, metadata, s)

/-- `call_DNS(region)`: opens the `VPC DNS Test` X-ray subsegment, resolves
`aws.amazon.com` A-records with the locally configured resolver; SUCCESS
iff resolution returns, verdict recorded via `put_parameter_store`. -/
def call_DNS (region : String) (env : Env) (s : St) : String × Nat × St :=
  let s := { s with probes := s.probes ++ ["call_DNS"],
                    trace := s.trace ++ ["begin:VPC DNS Test"] }
  let start := s.clock
  let (result, s) :=
    if env.dnsResolve.ok then
      let s := { s with clock := s.clock + env.dnsResolve.dur }
      ("SUCCESS", put_parameter_store "call_DNS" "SUCCESS" region env s)
    else
      let s := { s with clock := s.clock + env.dnsResolve.dur,
                        log := s.log ++ ["Call to VPC DNS failed."] }
      ("FAILED", put_parameter_store "call_DNS" "FAILED" region env s)
  let elapsed := s.clock - start
  let s := { s with trace := s.trace ++ ["end:VPC DNS Test"] }
  (result, elapsed, s)

/-- The fourteen format arguments `do_GET` feeds into the `content.html`
template for the full report (the template itself is external glue). -/
structure ReportFields where
  SSMTestString : String
  SSMTime : Nat
  DDBTestString : String
  DDBTime : Nat
  S3TestString : String
  S3Time : Nat
  MetadataTestString : String
  MetaDataTime : Nat
  ExtServerTestString : String
  ExtGetTime : Nat
  DNSTestString : String
  DNSGetTime : Nat
  BucketNameString : String
  RegionNameString : String
deriving Repr, DecidableEq

/-- The body the handler writes: the filled report template, the filled
`hc_html` page (title, content), or nothing (404 sends no body). -/
inductive Body where
  | report (f : ReportFields)
  | page (title content : String)
  | empty
deriving Repr, DecidableEq

structure Response where
  status : Nat
  body : Body
deriving Repr, DecidableEq

/-- The colour-coded verdict span of the report page. -/
def colour (t : String) : String :=
  if t == "SUCCESS" then "<span class=\"w3-text-green\">SUCCESS</span>"
  else "<span class=\"w3-text-red\">FAILED</span>"

/-- Fixed heading of the healthcheck page body. -/
def healthMsg : String := "<h1>Success, server is HEALTHY</h1>"

/-- `RequestHandler.do_GET`: `/` runs the six probes in registry order
inside an X-ray segment and answers 200 with the filled report template;
`/healthcheck` answers 299 with the `hc_html` page whose content is the
heading followed by the metadata payload of the untraced `get_metadata`
(the code unpacks its tuple as `mdtime, mdtest, metadata`, swapping the
first two names, but only `metadata` is used); any other path answers 404
with no body and touches nothing. -/
def do_GET (path region bucket : String) (env : Env) (s : St) : Response × St :=
  if path == "/" then
    let s := { s with trace := s.trace ++ ["begin:/"] }
    let (ssmtest, ssm_time, s) := call_SSM region env s
    let (ddbtest, ddb_time, s) := call_dynamoDB region env s
    let (s3test, s3_time, s) := call_S3 region bucket env s
    let (mdtest, md_time, _metadata, s) := get_metadata false region env s
    let (extservertest, ext_time, s) := call_extServer region env s
    let (dnstest, dns_time, s) := call_DNS region env s
    let f : ReportFields :=
      { SSMTestString := colour ssmtest, SSMTime := ssm_time,
        DDBTestString := colour ddbtest, DDBTime := ddb_time,
        S3TestString := colour s3test, S3Time := s3_time,
        MetadataTestString := colour mdtest, MetaDataTime := md_time,
        ExtServerTestString := colour extservertest, ExtGetTime := ext_time,
        DNSTestString := colour dnstest, DNSGetTime := dns_time,
        BucketNameString := bucket, RegionNameString := region }
    let s := { s with trace := s.trace ++ ["end:/"] }
    ({ status := 200, body := Body.report f }, s)
  else if path == "/healthcheck" then
    let (_mdtime, _mdtest, metadata, s) := get_metadata true region env s
    ({ status := 299, body := Body.page "healthcheck" (healthMsg ++ metadata) }, s)
  else
    ({ status := 404, body := Body.empty }, s)

/-! ## Characterization lemmas: closed forms for each probe. -/

/-- Closed form of `call_SSM`. -/
theorem call_SSM_eq (region : String) (env : Env) (s : St) :
    call_SSM region env s =
      ((if env.ssmGet.ok then "SUCCESS" else "FAILED"),
       env.ssmClientDur + env.ssmGet.dur + env.putDur,
       { s with
          clock := s.clock + env.ssmSessionDur + env.ssmClientDur
                    + env.ssmGet.dur + env.putDur,
          store := if env.putOk then
              ("call_SSM", if env.ssmGet.ok then "SUCCESS" else "FAILED") :: s.store
            else s.store,
          writes := s.writes ++ [("call_SSM", if env.ssmGet.ok then "SUCCESS" else "FAILED")],
          log := (if env.ssmGet.ok then s.log else s.log ++ ["Call to SSM failed."])
                  ++ (if env.putOk then [] else ["put_parameter failed: call_SSM " ++ region]),
          probes := s.probes ++ ["call_SSM"] }) := by
  cases h1 : env.ssmGet.ok <;> cases h2 : env.putOk <;>
    simp [call_SSM, put_parameter_store, h1, h2] <;> omega

/-- Closed form of `call_dynamoDB`. -/
theorem call_dynamoDB_eq (region : String) (env : Env) (s : St) :
    call_dynamoDB region env s =
      ((if env.ddbGet.ok then "SUCCESS" else "FAILED"),
       env.ddbSetupDur + env.ddbGet.dur + env.putDur,
       { s with
          clock := s.clock + env.ddbSetupDur + env.ddbGet.dur + env.putDur,
          store := if env.putOk then
              ("call_dynamoDB", if env.ddbGet.ok then "SUCCESS" else "FAILED") :: s.store
            else s.store,
          writes := s.writes
                  ++ [("call_dynamoDB", if env.ddbGet.ok then "SUCCESS" else "FAILED")],
          log := (if env.ddbGet.ok then s.log
                    else s.log ++ ["Call to DynamoDB VPC Endpoint failed."])
                  ++ (if env.putOk then []
                    else ["put_parameter failed: call_dynamoDB " ++ region]),
          probes := s.probes ++ ["call_dynamoDB"],
          ddbRequests := s.ddbRequests
                  ++ [("RecommendationService", "getRecommendation",
                        toString (randint 1 4 env.randSeed))] }) := by
  cases h1 : env.ddbGet.ok <;> cases h2 : env.putOk <;>
    simp [call_dynamoDB, put_parameter_store, h1, h2] <;> omega

/-- Closed form of `call_S3`. -/
theorem call_S3_eq (region bucket : String) (env : Env) (s : St) :
    call_S3 region bucket env s =
      ((if env.s3Download.ok then "SUCCESS" else "FAILED"),
       env.s3SetupDur + env.s3Download.dur + env.putDur,
       { s with
          clock := s.clock + env.s3SetupDur + env.s3Download.dur + env.putDur,
          store := if env.putOk then
              ("call_S3", if env.s3Download.ok then "SUCCESS" else "FAILED") :: s.store
            else s.store,
          writes := s.writes
                  ++ [("call_S3", if env.s3Download.ok then "SUCCESS" else "FAILED")],
          log := (if env.s3Download.ok then s.log
                    else s.log ++ ["Call to S3 VPC Endpoint failed."])
                  ++ (if env.putOk then []
                    else ["put_parameter failed: call_S3 " ++ region]),
          probes := s.probes ++ ["call_S3"],
          s3Requests := s.s3Requests
                  ++ [(bucket, "artifacts/three-tier-webstack/s3_get_green_checkmark.png")] }) := by
  cases h1 : env.s3Download.ok <;> cases h2 : env.putOk <;>
    simp [call_S3, put_parameter_store, h1, h2] <;> omega

/-- Closed form of `call_extServer`. -/
theorem call_extServer_eq (region : String) (env : Env) (s : St) :
    call_extServer region env s =
      ((if env.extConnErr then "FAILED"
          else if env.extDelay < extTimeout then "SUCCESS" else "FAILED"),
       (if env.extConnErr then env.extConnDur
          else if env.extDelay < extTimeout then env.extDelay else extTimeout) + env.putDur,
       { s with
          clock := s.clock
                  + ((if env.extConnErr then env.extConnDur
                      else if env.extDelay < extTimeout then env.extDelay else extTimeout)
                    + env.putDur),
          store := if env.putOk then
              ("call_extServer",
                if env.extConnErr then "FAILED"
                  else if env.extDelay < extTimeout then "SUCCESS" else "FAILED") :: s.store
            else s.store,
          writes := s.writes
                  ++ [("call_extServer",
                        if env.extConnErr then "FAILED"
                          else if env.extDelay < extTimeout then "SUCCESS" else "FAILED")],
          log := (if env.extConnErr = false ∧ env.extDelay < extTimeout then s.log
                    else s.log ++ ["Call to 1.1.1.1 failed."])
                  ++ (if env.putOk then []
                    else ["put_parameter failed: call_extServer " ++ region]),
          probes := s.probes ++ ["call_extServer"],
          trace := s.trace ++ ["begin:External Dependency", "end:External Dependency"],
          extRequests := s.extRequests ++ [("https://1.1.1.1", extTimeout)] }) := by
  cases h1 : env.extConnErr <;> by_cases h3 : env.extDelay < extTimeout <;>
    cases h2 : env.putOk <;>
    simp [call_extServer, put_parameter_store, h1, h2, h3] <;> omega

/-- Closed form of `get_metadata`. -/
theorem get_metadata_eq (healthcheck : Bool) (region : String) (env : Env) (s : St) :
    get_metadata healthcheck region env s =
      ((if env.mdFetch.ok then "SUCCESS" else "FAILED"),
       env.mdFetch.dur + env.putDur,
       (if env.mdFetch.ok then
          "<b>Metadata:</b><br>" ++ String.intercalate "<br>"
            ["availability_zone: " ++ env.mdAZ,
             "instance_id: " ++ env.mdInstanceId,
             "instance_type: " ++ env.mdInstanceType,
             "private_hostname: " ++ env.mdHostname,
             "private_ipv4: " ++ env.mdIpv4]
        else "<b>Metadata:</b><br>" ++ mdErrorText),
       { s with
          clock := s.clock + env.mdFetch.dur + env.putDur,
          store := if env.putOk then
              ("get_metadata", if env.mdFetch.ok then "SUCCESS" else "FAILED") :: s.store
            else s.store,
          writes := s.writes
                  ++ [("get_metadata", if env.mdFetch.ok then "SUCCESS" else "FAILED")],
          log := (if env.mdFetch.ok then s.log
                    else s.log ++ ["Call to EC2 Meta-data failed."])
                  ++ (if env.putOk then []
                    else ["put_parameter failed: get_metadata " ++ region]),
          probes := s.probes ++ ["get_metadata"],
          trace := if healthcheck then s.trace
                    else s.trace ++ ["begin:Metadata", "end:Metadata"] }) := by
  cases healthcheck <;> cases h1 : env.mdFetch.ok <;> cases h2 : env.putOk <;>
    simp [get_metadata, put_parameter_store, h1, h2] <;> omega

/-- Closed form of `call_DNS`. -/
theorem call_DNS_eq (region : String) (env : Env) (s : St) :
    call_DNS region env s =
      ((if env.dnsResolve.ok then "SUCCESS" else "FAILED"),
       env.dnsResolve.dur + env.putDur,
       { s with
          clock := s.clock + env.dnsResolve.dur + env.putDur,
          store := if env.putOk then
              ("call_DNS", if env.dnsResolve.ok then "SUCCESS" else "FAILED") :: s.store
            else s.store,
          writes := s.writes
                  ++ [("call_DNS", if env.dnsResolve.ok then "SUCCESS" else "FAILED")],
          log := (if env.dnsResolve.ok then s.log
                    else s.log ++ ["Call to VPC DNS failed."])
                  ++ (if env.putOk then []
                    else ["put_parameter failed: call_DNS " ++ region]),
          probes := s.probes ++ ["call_DNS"],
          trace := s.trace ++ ["begin:VPC DNS Test", "end:VPC DNS Test"] }) := by
  cases h1 : env.dnsResolve.ok <;> cases h2 : env.putOk <;>
    simp [call_DNS, put_parameter_store, h1, h2] <;> omega

/-! ## Claim theorems. -/

/-- C1: every probe invocation terminates with exactly one verdict from
{SUCCESS, FAILED}; whenever the external call raises (`ok = false`, or for
the external host a connection error or a timeout) the verdict is FAILED,
and no fault escapes: each probe is a total function into a verdict. -/
theorem probe_verdict_total (hc : Bool) (region bucket : String) (env : Env) (s : St) :
    ((call_SSM region env s).1 = "SUCCESS" ∨ (call_SSM region env s).1 = "FAILED")
  ∧ ((call_dynamoDB region env s).1 = "SUCCESS" ∨ (call_dynamoDB region env s).1 = "FAILED")
  ∧ ((call_S3 region bucket env s).1 = "SUCCESS" ∨ (call_S3 region bucket env s).1 = "FAILED")
  ∧ ((get_metadata hc region env s).1 = "SUCCESS" ∨ (get_metadata hc region env s).1 = "FAILED")
  ∧ ((call_extServer region env s).1 = "SUCCESS" ∨ (call_extServer region env s).1 = "FAILED")
  ∧ ((call_DNS region env s).1 = "SUCCESS" ∨ (call_DNS region env s).1 = "FAILED")
  ∧ (call_SSM region env s).1 = (if env.ssmGet.ok then "SUCCESS" else "FAILED")
  ∧ (call_dynamoDB region env s).1 = (if env.ddbGet.ok then "SUCCESS" else "FAILED")
  ∧ (call_S3 region bucket env s).1 = (if env.s3Download.ok then "SUCCESS" else "FAILED")
  ∧ (get_metadata hc region env s).1 = (if env.mdFetch.ok then "SUCCESS" else "FAILED")
  ∧ (call_extServer region env s).1
      = (if env.extConnErr then "FAILED"
          else if env.extDelay < extTimeout then "SUCCESS" else "FAILED")
  ∧ (call_DNS region env s).1 = (if env.dnsResolve.ok then "SUCCESS" else "FAILED") := by
  refine ⟨?_, ?_, ?_, ?_, ?_, ?_, ?_, ?_, ?_, ?_, ?_, ?_⟩ <;>
    simp only [call_SSM_eq, call_dynamoDB_eq, call_S3_eq, get_metadata_eq,
      call_extServer_eq, call_DNS_eq] <;>
    (split <;> simp) <;> omega

/-- C2: a request to the full-report endpoint `GET /` invokes exactly the
six registered probes, once each, in registry order (parameter store,
key-value lookup, object store, metadata, external host, DNS), answers
status 200, and the report carries one classified verdict per probe. -/
theorem full_report_runs_six_probes (region bucket : String) (env : Env) (s : St) :
    (do_GET "/" region bucket env s).2.probes
      = s.probes ++ ["call_SSM", "call_dynamoDB", "call_S3", "get_metadata",
                     "call_extServer", "call_DNS"]
  ∧ (do_GET "/" region bucket env s).1.status = 200
  ∧ ∃ f : ReportFields,
      (do_GET "/" region bucket env s).1.body = Body.report f
      ∧ f.SSMTestString = colour (if env.ssmGet.ok then "SUCCESS" else "FAILED")
      ∧ f.DDBTestString = colour (if env.ddbGet.ok then "SUCCESS" else "FAILED")
      ∧ f.S3TestString = colour (if env.s3Download.ok then "SUCCESS" else "FAILED")
      ∧ f.MetadataTestString = colour (if env.mdFetch.ok then "SUCCESS" else "FAILED")
      ∧ f.ExtServerTestString = colour (if env.extConnErr then "FAILED"
          else if env.extDelay < extTimeout then "SUCCESS" else "FAILED")
      ∧ f.DNSTestString = colour (if env.dnsResolve.ok then "SUCCESS" else "FAILED") := by
  simp [do_GET, call_SSM_eq, call_dynamoDB_eq, call_S3_eq, get_metadata_eq,
        call_extServer_eq, call_DNS_eq]

/-- C3: the state-recorder write is fire-and-forget: when the external
store fails, `put_parameter_store` still returns normally, leaving the
store untouched and appending only a log entry; and a full-report run
against a failing store returns exactly the same response — same probe
verdicts, same assembled report — as a run against a succeeding store. -/
theorem state_write_fire_and_forget (name value region bucket : String) (env : Env) (s : St) :
    put_parameter_store name value region { env with putOk := false } s
      = { s with clock := s.clock + env.putDur,
                 writes := s.writes ++ [(name, value)],
                 log := s.log ++ ["put_parameter failed: " ++ name ++ " " ++ region] }
  ∧ (do_GET "/" region bucket { env with putOk := false } s).1
      = (do_GET "/" region bucket { env with putOk := true } s).1
  ∧ (call_SSM region { env with putOk := false } s).1
      = (call_SSM region { env with putOk := true } s).1
  ∧ (call_dynamoDB region { env with putOk := false } s).1
      = (call_dynamoDB region { env with putOk := true } s).1
  ∧ (call_S3 region bucket { env with putOk := false } s).1
      = (call_S3 region bucket { env with putOk := true } s).1
  ∧ (get_metadata false region { env with putOk := false } s).1
      = (get_metadata false region { env with putOk := true } s).1
  ∧ (call_extServer region { env with putOk := false } s).1
      = (call_extServer region { env with putOk := true } s).1
  ∧ (call_DNS region { env with putOk := false } s).1
      = (call_DNS region { env with putOk := true } s).1 := by
  refine ⟨?_, ?_, ?_, ?_, ?_, ?_, ?_, ?_⟩ <;>
    simp [do_GET, put_parameter_store, call_SSM_eq, call_dynamoDB_eq, call_S3_eq,
          get_metadata_eq, call_extServer_eq, call_DNS_eq]

/-- The environment with the five non-metadata dependencies all failing:
parameter store, key-value lookup, object store, external host (connection
error) and DNS. -/
def failFive (env : Env) : Env :=
  { env with ssmGet := ⟨false, env.ssmGet.dur⟩,
             ddbGet := ⟨false, env.ddbGet.dur⟩,
             s3Download := ⟨false, env.s3Download.dur⟩,
             extConnErr := true,
             dnsResolve := ⟨false, env.dnsResolve.dur⟩ }

/-- C4: `GET /healthcheck` answers status 299, its body is the `hc_html`
page whose content is the fixed heading followed by the metadata payload,
only the metadata probe is invoked, and the whole outcome is unchanged when
the parameter-store, key-value, object-store, external-host and DNS
dependencies are all failed. -/
theorem healthcheck_alive_independent (region bucket : String) (env : Env) (s : St) :
    (do_GET "/healthcheck" region bucket env s).1.status = 299
  ∧ (do_GET "/healthcheck" region bucket env s).1.body
      = Body.page "healthcheck" (healthMsg ++ (get_metadata true region env s).2.2.1)
  ∧ (do_GET "/healthcheck" region bucket env s).2.probes = s.probes ++ ["get_metadata"]
  ∧ do_GET "/healthcheck" region bucket (failFive env) s
      = do_GET "/healthcheck" region bucket env s := by
  refine ⟨?_, ?_, ?_, ?_⟩ <;>
    simp [do_GET, failFive, get_metadata_eq]

/-- C9: the traced mode (`healthcheck = false`) and the untraced mode
(`healthcheck = true`) of the instance-metadata probe agree on verdict,
elapsed time and payload, and their final states differ only in the
tracing span recorded around the traced execution. -/
theorem metadata_traced_untraced_equiv (region : String) (env : Env) (s : St) :
    (get_metadata false region env s).1 = (get_metadata true region env s).1
  ∧ (get_metadata false region env s).2.1 = (get_metadata true region env s).2.1
  ∧ (get_metadata false region env s).2.2.1 = (get_metadata true region env s).2.2.1
  ∧ (get_metadata false region env s).2.2.2
      = { (get_metadata true region env s).2.2.2 with
          trace := (get_metadata true region env s).2.2.2.trace
                    ++ ["begin:Metadata", "end:Metadata"] } := by
  refine ⟨?_, ?_, ?_, ?_⟩ <;> simp [get_metadata_eq]

/-- A quiet baseline world: every external call succeeds instantly. -/
def baseEnv : Env :=
  { putOk := true, putDur := 0,
    ssmSessionDur := 0, ssmClientDur := 0, ssmGet := ⟨true, 0⟩,
    randSeed := 0, ddbSetupDur := 0, ddbGet := ⟨true, 0⟩, ddbItemPresent := true,
    s3SetupDur := 0, s3Download := ⟨true, 0⟩,
    mdFetch := ⟨true, 0⟩, mdAZ := "us-east-2a", mdInstanceId := "i-0abc",
    mdInstanceType := "t3.micro", mdHostname := "ip-10-0-0-1.ec2.internal",
    mdIpv4 := "10.0.0.1",
    extConnErr := false, extConnDur := 0, extDelay := 0,
    dnsResolve := ⟨true, 0⟩ }

/-- The initial world state: clock at zero, every store and log empty. -/
def baseSt : St :=
  { clock := 0, store := [], writes := [], log := [], trace := [], probes := [],
    ddbRequests := [], s3Requests := [], extRequests := [] }

/-- A world where the S3 download takes 10 ms and the state-store write
takes 5 ms. -/
def s3TimingEnv : Env :=
  { baseEnv with s3Download := ⟨true, 1000⟩, putDur := 500 }

/-- C5 counterexample: with a 10 ms external download and a 5 ms
state-store write, the object-store probe reports 15 ms, not the 10 ms
duration of the external call alone — so the reported elapsed time is not
the interval from immediately before the external call to immediately after
it returns. -/
theorem elapsed_exceeds_call_duration :
    (call_S3 "us-east-2" "bkt" s3TimingEnv baseSt).2.1 = 1500
  ∧ s3TimingEnv.s3Download.dur = 1000
  ∧ (call_S3 "us-east-2" "bkt" s3TimingEnv baseSt).2.1 ≠ s3TimingEnv.s3Download.dur := by
  refine ⟨?_, rfl, ?_⟩ <;> simp [call_S3_eq, s3TimingEnv, baseEnv]

/-- C5 amended: each probe's reported elapsed time (a `Nat` count of
hundredths of a millisecond, hence non-negative and a multiple of 0.01 ms
by construction) is the wall-clock interval from the probe's `start_time`
to after its state-store write: the external call's duration plus any
in-window client setup plus the state-recorder write, not the external
call alone. -/
theorem elapsed_includes_setup_and_state_write (hc : Bool) (region bucket : String)
    (env : Env) (s : St) :
    (call_SSM region env s).2.1 = env.ssmClientDur + env.ssmGet.dur + env.putDur
  ∧ (call_dynamoDB region env s).2.1 = env.ddbSetupDur + env.ddbGet.dur + env.putDur
  ∧ (call_S3 region bucket env s).2.1 = env.s3SetupDur + env.s3Download.dur + env.putDur
  ∧ (get_metadata hc region env s).2.1 = env.mdFetch.dur + env.putDur
  ∧ (call_extServer region env s).2.1
      = (if env.extConnErr then env.extConnDur
          else if env.extDelay < extTimeout then env.extDelay else extTimeout)
        + env.putDur
  ∧ (call_DNS region env s).2.1 = env.dnsResolve.dur + env.putDur := by
  refine ⟨?_, ?_, ?_, ?_, ?_, ?_⟩ <;>
    simp [call_SSM_eq, call_dynamoDB_eq, call_S3_eq, get_metadata_eq,
          call_extServer_eq, call_DNS_eq]

/-- C6: the key-value probe draws its user id with `randint 1 4`, which is
always in `[1, 4]` and uniform (one period of the seed maps onto `[1, 4]`
exactly once, and the draw is 4-periodic in the seed); it issues exactly one
point lookup on table `RecommendationService` with composite key
`{ServiceAPI: getRecommendation, UserID: user_id}`; it returns SUCCESS
whenever the lookup returns without raising — ignoring whether the item is
present — and FAILED whenever the call raises. -/
theorem keyvalue_lookup_lenient (region : String) (env : Env) (s : St) :
    (1 ≤ randint 1 4 env.randSeed ∧ randint 1 4 env.randSeed ≤ 4)
  ∧ List.map (randint 1 4) [0, 1, 2, 3] = [1, 2, 3, 4]
  ∧ (∀ seed, randint 1 4 (seed + 4) = randint 1 4 seed)
  ∧ (call_dynamoDB region env s).2.2.ddbRequests
      = s.ddbRequests ++ [("RecommendationService", "getRecommendation",
                            toString (randint 1 4 env.randSeed))]
  ∧ (call_dynamoDB region env s).1 = (if env.ddbGet.ok then "SUCCESS" else "FAILED")
  ∧ (∀ b, call_dynamoDB region { env with ddbItemPresent := b } s
        = call_dynamoDB region env s) := by
  refine ⟨⟨?_, ?_⟩, by decide, fun seed => ?_, ?_, ?_, fun b => ?_⟩
  · simp [randint]
  · simp [randint]; omega
  · simp [randint]
  · simp [call_dynamoDB_eq]
  · simp [call_dynamoDB_eq]
  · simp [call_dynamoDB_eq]

/-- C7: the external-host probe issues exactly one call to the fixed
address `https://1.1.1.1` with the fixed 200 ms timeout (20000 hundredths
of a millisecond); it returns SUCCESS iff the response arrives before the
timeout, and any connection error or timeout yields FAILED; when the host
takes 300 ms to answer, the probe reports FAILED and its elapsed time is
200 ms plus only the state-write overhead — not 300 ms. -/
theorem extserver_fixed_timeout (region : String) (env : Env) (s : St) :
    extTimeout = 20000
  ∧ (call_extServer region env s).2.2.extRequests
      = s.extRequests ++ [("https://1.1.1.1", extTimeout)]
  ∧ ((call_extServer region env s).1 = "SUCCESS"
      ↔ (env.extConnErr = false ∧ env.extDelay < extTimeout))
  ∧ (env.extConnErr = false → env.extDelay = 30000 →
      (call_extServer region env s).1 = "FAILED"
      ∧ (call_extServer region env s).2.1 = 20000 + env.putDur) := by
  refine ⟨rfl, ?_, ?_, fun h1 h2 => ?_⟩
  · simp [call_extServer_eq]
  · simp only [call_extServer_eq]
    cases h1 : env.extConnErr <;> by_cases h3 : env.extDelay < extTimeout <;>
      simp [h1, h3]
  · simp [call_extServer_eq, h1, h2, extTimeout]

/-- A world where the external host answers only after 300 ms. -/
def extSlowEnv : Env := { baseEnv with extDelay := 30000 }

/-- C7 witness: with a 300 ms response delay the probe reports FAILED with
elapsed time exactly 200 ms (20000 hundredths of a millisecond). -/
theorem extserver_fixed_timeout_witness :
    (call_extServer "us-east-2" extSlowEnv baseSt).1 = "FAILED"
  ∧ (call_extServer "us-east-2" extSlowEnv baseSt).2.1 = 20000 := by
  have h := (extserver_fixed_timeout "us-east-2" extSlowEnv baseSt).2.2.2 rfl rfl
  exact ⟨h.1, h.2⟩

/-- C8: a GET request for any path other than `/` and `/healthcheck`
answers 404 with no body and leaves the world untouched: no probe is
invoked and no state-store write happens. -/
theorem unknown_path_404 (path region bucket : String) (env : Env) (s : St)
    (h1 : path ≠ "/") (h2 : path ≠ "/healthcheck") :
    do_GET path region bucket env s = ({ status := 404, body := Body.empty }, s) := by
  simp [do_GET, h1, h2]

/-- C8 witness: `GET /nope` answers 404 with empty body and an unchanged
world state. -/
theorem unknown_path_404_witness :
    do_GET "/nope" "us-east-2" "bkt" baseEnv baseSt
      = ({ status := 404, body := Body.empty }, baseSt) :=
  unknown_path_404 "/nope" "us-east-2" "bkt" baseEnv baseSt (by decide) (by decide)

/-- C10: every probe run issues exactly one state-store write, under that
probe's fixed name, and the verdict string written is the verdict the probe
returns; in particular an object-store run whose download fails (e.g. a
non-existent bucket) returns FAILED and, when the store itself is
reachable, leaves the store holding `call_S3 FAILED`. -/
theorem probe_records_verdict (hc : Bool) (region bucket : String) (env : Env) (s : St) :
    (call_SSM region env s).2.2.writes
      = s.writes ++ [("call_SSM", (call_SSM region env s).1)]
  ∧ (call_dynamoDB region env s).2.2.writes
      = s.writes ++ [("call_dynamoDB", (call_dynamoDB region env s).1)]
  ∧ (call_S3 region bucket env s).2.2.writes
      = s.writes ++ [("call_S3", (call_S3 region bucket env s).1)]
  ∧ (get_metadata hc region env s).2.2.2.writes
      = s.writes ++ [("get_metadata", (get_metadata hc region env s).1)]
  ∧ (call_extServer region env s).2.2.writes
      = s.writes ++ [("call_extServer", (call_extServer region env s).1)]
  ∧ (call_DNS region env s).2.2.writes
      = s.writes ++ [("call_DNS", (call_DNS region env s).1)]
  ∧ (env.s3Download.ok = false → env.putOk = true →
      (call_S3 region bucket env s).1 = "FAILED"
      ∧ storeGet (call_S3 region bucket env s).2.2.store "call_S3" = some "FAILED") := by
  refine ⟨?_, ?_, ?_, ?_, ?_, ?_, fun h1 h2 => ?_⟩ <;>
    simp [call_SSM_eq, call_dynamoDB_eq, call_S3_eq, get_metadata_eq,
          call_extServer_eq, call_DNS_eq, storeGet, *]

/-- A world where the S3 download raises (the bucket does not exist). -/
def s3FailEnv : Env := { baseEnv with s3Download := ⟨false, 0⟩ }

/-- C10 witness: the object-store probe against the failing bucket returns
FAILED and the state store ends up holding `call_S3 FAILED`. -/
theorem probe_records_verdict_witness :
    (call_S3 "us-east-2" "no-such-bucket" s3FailEnv baseSt).1 = "FAILED"
  ∧ storeGet (call_S3 "us-east-2" "no-such-bucket" s3FailEnv baseSt).2.2.store "call_S3"
      = some "FAILED" :=
  (probe_records_verdict false "us-east-2" "no-such-bucket" s3FailEnv baseSt).2.2.2.2.2.2
    rfl rfl

end Server
